import Mathlib

/-!
Shallow embedding of the Entity-ID-Searcher-Tool repository:
the Supabase edge function `supabase/functions/knowledge-graph-search/index.ts`
(request validation, the two type-matching scans over upstream candidates, and
the response shapes) and the client-side scoring functions of the several App
variants (`src/App.tsx` and the unnamed variant files).

JavaScript numbers are modelled as rationals (ℚ); `Math.round` is Mathlib's
`round` (round half towards +infinity, matching `Math.round`); JSON optional
fields are `Option`; JS truthiness is spelled out explicitly at each use site.
-/

namespace EntitySearcher

/-! ## Upstream data model (index.ts interfaces) -/

/-- `VALID_ENTITY_TYPES` from index.ts line 9. -/
def VALID_ENTITY_TYPES : List String := ["Organization", "Corporation", "LocalBusiness"]

/-- `AMBIGUOUS_TYPES` from index.ts line 10. -/
def AMBIGUOUS_TYPES : List String := ["Book", "Thing"]

/-- The `'@type'?: string | string[]` field of an upstream candidate. -/
inductive TypeField where
  | missing
  | single (t : String)
  | multiple (ts : List String)
deriving DecidableEq, Repr

/-- The `result` object of a `KnowledgeGraphItem` (index.ts lines 14-20);
`address.addressLocality` is carried for the README variant of the proxy. -/
structure UpstreamResult where
  id : Option String
  name : Option String
  typeField : TypeField
  description : Option String
  url : Option String
  addressLocality : Option String
deriving DecidableEq, Repr

/-- `KnowledgeGraphItem` (index.ts lines 12-22): an optional `result`
object plus an item-level `resultScore`. -/
structure KnowledgeGraphItem where
  result : Option UpstreamResult
  resultScore : Option ℚ
deriving DecidableEq, Repr

/-- `KnowledgeGraphResponse` (index.ts lines 24-26): `itemListElement?`. -/
structure KnowledgeGraphResponse where
  itemListElement : Option (List KnowledgeGraphItem)
deriving DecidableEq, Repr

/-- `normalizeTypes` (index.ts lines 90-93).  JS note: `if (!types) return []`
is truthiness, so the single empty string is falsy and also yields `[]`. -/
def normalizeTypes : TypeField → List String
  | .missing => []
  | .single t => if t = "" then [] else [t]
  | .multiple ts => ts

/-- JS `x || dflt` on an optional string: `undefined` and `""` are falsy. -/
def jsStringOr (s : Option String) (dflt : String) : String :=
  match s with
  | none => dflt
  | some v => if v = "" then dflt else v

/-! ## Response payloads built by the proxy -/

/-- The `result` object of a machine-verified response (index.ts lines
110-116): exactly the fields `name`, `entityId`, `types`, `description`,
`url`.  The source never includes `resultScore` or `location` here. -/
structure VerifiedResult where
  name : String
  entityId : Option String
  types : List String
  description : Option String
  url : Option String
deriving DecidableEq, Repr

/-- The `result` object of an ambiguous response (index.ts lines 142-146). -/
structure AmbiguousResult where
  name : String
  types : List String
  description : Option String
deriving DecidableEq, Repr

/-- `JSON.stringify` drops keys whose value is `undefined`, so the key set of
the serialized machine-verified `result` object depends on which optional
fields are present.  These are the keys actually emitted for a
`VerifiedResult`, in source order. -/
def verifiedResultKeys (p : VerifiedResult) : List String :=
  ["name"]
    ++ (match p.entityId with | some _ => ["entityId"] | none => [])
    ++ ["types"]
    ++ (match p.description with | some _ => ["description"] | none => [])
    ++ (match p.url with | some _ => ["url"] | none => [])

/-- Building the machine-verified payload from the matched candidate
(index.ts lines 110-116): `name: result.name || query` and the other fields
copied through. -/
def mkVerifiedResult (r : UpstreamResult) (query : String) : VerifiedResult :=
  { name := jsStringOr r.name query
    entityId := r.id
    types := normalizeTypes r.typeField
    description := r.description
    url := r.url }

/-- Building the ambiguous payload (index.ts lines 142-146). -/
def mkAmbiguousResult (r : UpstreamResult) (query : String) : AmbiguousResult :=
  { name := jsStringOr r.name query
    types := normalizeTypes r.typeField
    description := r.description }

/-- The classification outcome of the proxy once the upstream response has
been obtained: one of the three success payload shapes. -/
inductive ClassifyOutcome where
  | machineVerified (r : VerifiedResult)
  | ambiguous (r : AmbiguousResult)
  | aiInvisible
deriving DecidableEq, Repr

/-! ## The two scans (index.ts lines 95-156) -/

/-- `types.some(type => VALID_ENTITY_TYPES.includes(type))`
(index.ts lines 101-103). -/
def matchesVerified (r : UpstreamResult) : Bool :=
  (normalizeTypes r.typeField).any (fun t => VALID_ENTITY_TYPES.contains t)

/-- `types.some(type => AMBIGUOUS_TYPES.includes(type) || type === 'Thing')`
(index.ts lines 134-136). -/
def matchesAmbiguous (r : UpstreamResult) : Bool :=
  (normalizeTypes r.typeField).any (fun t => AMBIGUOUS_TYPES.contains t || t == "Thing")

/-- The shared shape of the two `for` loops (index.ts lines 95-97 and
128-130): iterate in upstream order, `continue` on items with no `result`,
return the first candidate whose types pass the test. -/
def scanFirst (test : UpstreamResult → Bool) : List KnowledgeGraphItem → Option UpstreamResult
  | [] => none
  | item :: rest =>
      match item.result with
      | none => scanFirst test rest
      | some r => if test r then some r else scanFirst test rest

/-- First pass (index.ts lines 95-126). -/
def findVerified (items : List KnowledgeGraphItem) : Option UpstreamResult :=
  scanFirst matchesVerified items

/-- Second pass (index.ts lines 128-156). -/
def findAmbiguous (items : List KnowledgeGraphItem) : Option UpstreamResult :=
  scanFirst matchesAmbiguous items

/-- Whether the first-pass loop body fires on this item: it has a `result`
whose normalized types intersect the recognized set. -/
def isRecognizedItem (item : KnowledgeGraphItem) : Bool :=
  match item.result with
  | none => false
  | some r => matchesVerified r

/-- Whether the second-pass loop body fires on this item. -/
def isAmbiguousItem (item : KnowledgeGraphItem) : Bool :=
  match item.result with
  | none => false
  | some r => matchesAmbiguous r

/-- The two passes plus the fallthrough (index.ts lines 95-166). -/
def classifyItems (items : List KnowledgeGraphItem) (query : String) : ClassifyOutcome :=
  match findVerified items with
  | some r => .machineVerified (mkVerifiedResult r query)
  | none =>
      match findAmbiguous items with
      | some r => .ambiguous (mkAmbiguousResult r query)
      | none => .aiInvisible

/-- Classification of a parsed upstream response body (index.ts lines
78-166): the empty-list check `!data.itemListElement ||
data.itemListElement.length === 0` followed by the two scans. -/
def classifyResponse (data : KnowledgeGraphResponse) (query : String) : ClassifyOutcome :=
  match data.itemListElement with
  | none => .aiInvisible
  | some items => if items.isEmpty then .aiInvisible else classifyItems items query

/-! ## The request handler (index.ts `Deno.serve`, lines 28-183) -/

/-- A JSON value as far as the handler inspects it: the `query` field of the
request body.  Arrays and objects only matter through their truthiness, so
their contents are not modelled. -/
inductive JsonVal where
  | jstr (s : String)
  | jnum (q : ℚ)
  | jbool (b : Bool)
  | jnull
  | jarray
  | jobject
deriving DecidableEq, Repr

/-- JS truthiness of a present value: `""`, `0`, `false`, `null` are falsy;
arrays and objects are always truthy. -/
def jsTruthy : JsonVal → Bool
  | .jstr s => decide (s ≠ "")
  | .jnum q => decide (q ≠ 0)
  | .jbool b => b
  | .jnull => false
  | .jarray => true
  | .jobject => true

/-- `typeof v === 'string'`. -/
def isJsString : JsonVal → Bool
  | .jstr _ => true
  | _ => false

/-- Truthiness of the destructured `query` field; a missing field is
`undefined`, which is falsy. -/
def fieldTruthy : Option JsonVal → Bool
  | none => false
  | some v => jsTruthy v

/-- `typeof query === 'string'` on the optional field (`undefined` is not a
string). -/
def fieldIsString : Option JsonVal → Bool
  | none => false
  | some v => isJsString v

/-- The string content of a query field that passed validation. -/
def queryString : Option JsonVal → String
  | some (.jstr s) => s
  | _ => ""

/-- The body of a proxy response: empty (OPTIONS preflight), an
`{error: ...}` payload, or a classified success payload. -/
inductive ResponseBody where
  | empty
  | errorMsg (msg : String)
  | classified (o : ClassifyOutcome)
deriving DecidableEq, Repr

/-- A response as the handler builds it: status, headers, body. -/
structure HttpResponse where
  status : Nat
  headers : List (String × String)
  body : ResponseBody
deriving DecidableEq, Repr

/-- `corsHeaders` (index.ts lines 3-7). -/
def corsHeaders : List (String × String) :=
  [("Access-Control-Allow-Origin", "*"),
   ("Access-Control-Allow-Methods", "GET, POST, PUT, DELETE, OPTIONS"),
   ("Access-Control-Allow-Headers", "Content-Type, Authorization, X-Client-Info, Apikey")]

/-- `{...corsHeaders, 'Content-Type': 'application/json'}`, the header
object every non-OPTIONS response in index.ts is built with. -/
def jsonHeaders : List (String × String) :=
  corsHeaders ++ [("Content-Type", "application/json")]

/-- Shorthand for a response carrying `jsonHeaders`. -/
def jsonResponse (status : Nat) (body : ResponseBody) : HttpResponse :=
  { status := status, headers := jsonHeaders, body := body }

/-- Outcome of the outbound `fetch` to the knowledge-graph API, as the
handler observes it. -/
inductive UpstreamOutcome where
  | fetchFailed
  | badStatus (code : Nat)
  | badBody
  | success (data : KnowledgeGraphResponse)
deriving DecidableEq, Repr

/-- The `Deno.serve` handler (index.ts lines 28-183) as a function of the
request method, the parsed request body (`none` when `req.json()` throws;
otherwise the optional `query` field), the environment's API key, and the
upstream behaviour.  Returns the response together with whether the
outbound upstream call was made.  The `catch` branch (lines 168-182)
surfaces thrown errors as a 500 with an error payload. -/
def handleRequest (method : String) (body : Option (Option JsonVal))
    (apiKey : Option String) (upstream : UpstreamOutcome) : HttpResponse × Bool :=
  if method = "OPTIONS" then
    ({ status := 200, headers := corsHeaders, body := .empty }, false)
  else
    match body with
    | none =>
        (jsonResponse 500 (.errorMsg "Unexpected end of JSON input"), false)
    | some queryField =>
        if !(fieldTruthy queryField) || !(fieldIsString queryField) then
          (jsonResponse 400 (.errorMsg "Brand name is required"), false)
        else
          match apiKey with
          | none =>
              (jsonResponse 500 (.errorMsg
                "API key not configured. Please add GOOGLE_KNOWLEDGE_GRAPH_API_KEY to your environment variables."),
               false)
          | some _ =>
              match upstream with
              | .fetchFailed =>
                  (jsonResponse 500 (.errorMsg "fetch failed"), true)
              | .badStatus code =>
                  (jsonResponse 500
                    (.errorMsg ("Knowledge Graph API error: " ++ toString code)), true)
              | .badBody =>
                  (jsonResponse 500 (.errorMsg "Unexpected end of JSON input"), true)
              | .success data =>
                  (jsonResponse 200
                    (.classified (classifyResponse data (queryString queryField))), true)

/-! ## Client-side UI state and scoring variants -/

/-- The `Status` union of the App variants (`null` is `noStatus`). -/
inductive Status where
  | machineVerified
  | ambiguous
  | aiInvisible
  | loading
  | error
  | noStatus
deriving DecidableEq, Repr

/-- The `EntityResult` interface of the raw-score App variants
(part_001, part_002 and the first variant in part_003): every
score-bearing field is optional. -/
structure ClientResult where
  name : String
  entityId : Option String
  types : List String
  description : Option String
  url : Option String
  resultScore : Option ℚ
  location : Option String
deriving DecidableEq, Repr

/-- `result?.resultScore`: the optional chain on the optional result. -/
def optionalScore (result : Option ClientResult) : Option ℚ :=
  match result with
  | none => none
  | some r => r.resultScore

namespace AppMain

/-- `getFoundScore` of `src/App.tsx` (lines 22-27): fixed scores per
status. -/
def getFoundScore (status : Status) : Option ℤ :=
  if status = .machineVerified then some 95
  else if status = .ambiguous then some 45
  else if status = .aiInvisible then some 0
  else none

/-- Render condition of the verified detail panel (`App.tsx` line 174):
`status === 'machine-verified' && result`. -/
def showsVerifiedPanel (status : Status) (result : Option ClientResult) : Bool :=
  (status == .machineVerified) && result.isSome

/-- Render condition of the no-entity-found panel (`App.tsx` line 224):
`status === 'ai-invisible'`. -/
def showsInvisiblePanel (status : Status) : Bool :=
  status == .aiInvisible

end AppMain

namespace AppStable

/-- `displayScore` of part_001 (lines 20-23): truthy raw scores below 1 are
scaled by 100, others shown raw, capped at 100; otherwise 0 for
`ai-invisible` and null for the rest. -/
def displayScore (status : Status) (result : Option ClientResult) : Option ℤ :=
  match optionalScore result with
  | some q =>
      if q = 0 then (if status = .aiInvisible then some 0 else none)
      else some (min (round (if q < 1 then q * 100 else q)) 100)
  | none => if status = .aiInvisible then some 0 else none

/-- Render condition of the entity signal panel (part_001 line 92):
`status === 'machine-verified' && result`. -/
def showsEntityPanel (status : Status) (result : Option ClientResult) : Bool :=
  (status == .machineVerified) && result.isSome

/-- Render condition of the score block (part_001 line 82):
`displayScore !== null && status !== 'loading'`. -/
def showsScoreBlock (status : Status) (result : Option ClientResult) : Bool :=
  (displayScore status result).isSome && !(status == .loading)

end AppStable

namespace AppNuclear

/-- `rawScore` of part_002 (line 22): truthy raw score times 100, no cap;
otherwise 0 for `ai-invisible` and null for the rest. -/
def rawScore (status : Status) (result : Option ClientResult) : Option ℤ :=
  match optionalScore result with
  | some q =>
      if q = 0 then (if status = .aiInvisible then some 0 else none)
      else some (round (q * 100))
  | none => if status = .aiInvisible then some 0 else none

end AppNuclear

namespace AppBrutal

/-- `foundScore` of the first variant in part_003 (line 24): truthy raw
score times 100, capped at 100; otherwise 0 for `ai-invisible` and null
for the rest. -/
def foundScore (status : Status) (result : Option ClientResult) : Option ℤ :=
  match optionalScore result with
  | some q =>
      if q = 0 then (if status = .aiInvisible then some 0 else none)
      else some (min (round (q * 100)) 100)
  | none => if status = .aiInvisible then some 0 else none

end AppBrutal

namespace AppCalibrated

/-- The `EntityResult` interface of the calibrated variant in part_003
(lines 132-139): `resultScore: number` is required there.  Only the fields
the scorer reads are carried. -/
structure EntityResult where
  types : List String
  resultScore : ℚ
deriving DecidableEq, Repr

/-- The specialized ("niche") type set of the calibrated scorer
(part_003 line 163). -/
def specializedTypes : List String :=
  ["RealEstateAgent", "RealEstateListing", "HomeAndConstructionBusiness"]

/-- `getFoundScore` of the calibrated variant in part_003 (lines 151-176):
normalize `resultScore` against the 600 ceiling, cap the base at 98, apply
the 0.6 niche penalty when the types miss the specialized set, and round.
Note there is no extra cap for the `ambiguous` status. -/
def getFoundScore (status : Status) (result : Option EntityResult) : Option ℤ :=
  if status == .loading || result.isNone then none
  else if status == .aiInvisible then some 0
  else
    match result with
    | none => none
    | some r =>
        let baseScore : ℚ := min (r.resultScore / 600 * 100) 98
        let isRealEstateEntity := r.types.any (fun t => specializedTypes.contains t)
        some (round (if !isRealEstateEntity then baseScore * (6 / 10) else baseScore))

end AppCalibrated

/-! ## Helper lemmas -/

/-- Whether a loop body fires on an item: it has a `result` that passes the
test. -/
def itemFires (test : UpstreamResult → Bool) (item : KnowledgeGraphItem) : Bool :=
  match item.result with
  | none => false
  | some r => test r

theorem isRecognizedItem_eq_itemFires :
    isRecognizedItem = itemFires matchesVerified := by
  funext i
  unfold isRecognizedItem itemFires
  rcases i.result <;> rfl

theorem isAmbiguousItem_eq_itemFires :
    isAmbiguousItem = itemFires matchesAmbiguous := by
  funext i
  unfold isAmbiguousItem itemFires
  rcases i.result <;> rfl

/-- `Math.round` is monotone (on our rational model). -/
theorem round_mono_rat {a b : ℚ} (h : a ≤ b) : round a ≤ round b := by
  rw [round_eq, round_eq]
  exact Int.floor_le_floor (by linarith)

/-- Evaluation of the calibrated scorer on a present result for the statuses
that reach the arithmetic. -/
theorem calibrated_score_eq (s : Status) (r : AppCalibrated.EntityResult)
    (h1 : s ≠ .loading) (h2 : s ≠ .aiInvisible) :
    AppCalibrated.getFoundScore s (some r) =
      some (round (min (r.resultScore / 600 * 100) 98 *
        (if r.types.any (fun t => AppCalibrated.specializedTypes.contains t) then 1 else 6 / 10))) := by
  unfold AppCalibrated.getFoundScore
  rw [if_neg (by simp [h1]), if_neg (by simp [h2])]
  show some (round _) = some (round _)
  rcases h : r.types.any (fun t => AppCalibrated.specializedTypes.contains t)
  · rw [if_pos (by decide), if_neg (by decide)]
  · rw [if_neg (by decide), if_pos (by decide), mul_one]

/-- Definitional unfolding of one loop step. -/
theorem scanFirst_cons (test : UpstreamResult → Bool) (x : KnowledgeGraphItem)
    (xs : List KnowledgeGraphItem) :
    scanFirst test (x :: xs) =
      match x.result with
      | none => scanFirst test xs
      | some r => if test r then some r else scanFirst test xs := by
  rfl

/-- The scan returns `none` when no item carries a `result` object at all. -/
theorem scanFirst_eq_none_of_no_result (test : UpstreamResult → Bool)
    (l : List KnowledgeGraphItem) (h : ∀ i ∈ l, i.result = none) :
    scanFirst test l = none := by
  induction l with
  | nil => rfl
  | cons x xs ih =>
      have hx : x.result = none := h x (List.mem_cons_self x xs)
      rw [scanFirst_cons, hx]
      exact ih fun i hi => h i (List.mem_cons_of_mem _ hi)

/-- Items without a `result` are transparent to the scan. -/
theorem scanFirst_filter (test : UpstreamResult → Bool) (l : List KnowledgeGraphItem) :
    scanFirst test (l.filter fun i => i.result.isSome) = scanFirst test l := by
  induction l with
  | nil => rfl
  | cons x xs ih =>
      rcases hx : x.result with _ | r
      · rw [List.filter_cons_of_neg (by simp [hx])]
        rw [ih, scanFirst_cons, hx]
      · rw [List.filter_cons_of_pos (by simp [hx])]
        rw [scanFirst_cons, scanFirst_cons, hx, ih]

/-- When some item fires, the scan returns the `result` of the first item
that fires, and no earlier item fires. -/
theorem scanFirst_first (test : UpstreamResult → Bool) (l : List KnowledgeGraphItem)
    (h : l.any (itemFires test) = true) :
    ∃ k, ∃ hk : k < l.length, ∃ r,
      (l.get ⟨k, hk⟩).result = some r ∧ test r = true ∧
      (∀ j ∈ l.take k, itemFires test j = false) ∧
      scanFirst test l = some r := by
  induction l with
  | nil => simp at h
  | cons x xs ih =>
      rcases hx : itemFires test x with _ | _
      · have h' : xs.any (itemFires test) = true := by
          rcases (List.any_eq_true).1 h with ⟨i, hi, hfire⟩
          rcases List.mem_cons.1 hi with rfl | hi'
          · rw [hx] at hfire; exact absurd hfire (by simp)
          · exact (List.any_eq_true).2 ⟨i, hi', hfire⟩
        obtain ⟨k, hk, r, hres, htest, hpre, hfind⟩ := ih h'
        refine ⟨k + 1, by simpa using hk, r, by simpa using hres, htest, ?_, ?_⟩
        · intro j hj
          rw [List.take_succ_cons] at hj
          rcases List.mem_cons.1 hj with rfl | hj'
          · exact hx
          · exact hpre j hj'
        · rcases hxr : x.result with _ | rx
          · rw [scanFirst_cons, hxr]
            exact hfind
          · have htx : test rx = false := by
              unfold itemFires at hx
              rw [hxr] at hx
              exact hx
            rw [scanFirst_cons, hxr]
            show (if test rx then some rx else scanFirst test xs) = some r
            rw [htx, if_neg (by simp)]
            exact hfind
      · rcases hxr : x.result with _ | rx
        · unfold itemFires at hx; rw [hxr] at hx; exact absurd hx (by simp)
        · have htx : test rx = true := by
            unfold itemFires at hx; rw [hxr] at hx; exact hx
          refine ⟨0, by simp, rx, by simpa using hxr, htx, by simp, ?_⟩
          rw [scanFirst_cons, hxr]
          show (if test rx then some rx else scanFirst test xs) = some rx
          rw [htx, if_pos rfl]

/-- Whatever the scan returns came from some item of the list and passes
the test. -/
theorem scanFirst_mem (test : UpstreamResult → Bool) (l : List KnowledgeGraphItem)
    (r : UpstreamResult) (h : scanFirst test l = some r) :
    ∃ i ∈ l, i.result = some r ∧ test r = true := by
  induction l with
  | nil => exact absurd h (by simp [scanFirst])
  | cons x xs ih =>
      rcases hx : x.result with _ | rx
      · rw [scanFirst_cons, hx] at h
        obtain ⟨i, hi, hr⟩ := ih h
        exact ⟨i, List.mem_cons_of_mem _ hi, hr⟩
      · rw [scanFirst_cons, hx] at h
        rcases htx : test rx with _ | _
        · rw [show (match some rx with
              | none => scanFirst test xs
              | some r => if test r then some r else scanFirst test xs) =
              if test rx then some rx else scanFirst test xs from rfl,
            htx, if_neg (by simp)] at h
          obtain ⟨i, hi, hr⟩ := ih h
          exact ⟨i, List.mem_cons_of_mem _ hi, hr⟩
        · rw [show (match some rx with
              | none => scanFirst test xs
              | some r => if test r then some r else scanFirst test xs) =
              if test rx then some rx else scanFirst test xs from rfl,
            htx, if_pos rfl] at h
          cases h
          exact ⟨x, List.mem_cons_self x xs, hx, htx⟩

/-- `"resultScore"` is never among the keys of a serialized machine-verified
result payload. -/
theorem resultScore_notMem_verifiedResultKeys (p : VerifiedResult) :
    "resultScore" ∉ verifiedResultKeys p := by
  unfold verifiedResultKeys
  rcases p.entityId <;> rcases p.description <;> rcases p.url <;> simp

/-- `"location"` is never among the keys of a serialized machine-verified
result payload. -/
theorem location_notMem_verifiedResultKeys (p : VerifiedResult) :
    "location" ∉ verifiedResultKeys p := by
  unfold verifiedResultKeys
  rcases p.entityId <;> rcases p.description <;> rcases p.url <;> simp

/-- Every non-OPTIONS branch of the handler attaches `jsonHeaders`. -/
theorem handleRequest_headers (method : String) (body : Option (Option JsonVal))
    (apiKey : Option String) (upstream : UpstreamOutcome) (h : method ≠ "OPTIONS") :
    (handleRequest method body apiKey upstream).1.headers = jsonHeaders := by
  unfold handleRequest
  rw [if_neg h]
  rcases body with _ | qf
  · rfl
  · dsimp only
    split
    · rfl
    · rcases apiKey with _ | k
      · rfl
      · rcases upstream <;> rfl



theorem classifyResponse_some (items : List KnowledgeGraphItem) (query : String) :
    classifyResponse ⟨some items⟩ query =
      if items.isEmpty then .aiInvisible else classifyItems items query := by
  rfl

/-! ## Claims -/

/-- C1: if any candidate in the upstream list has a `result` whose normalized
types intersect the recognized-entity set, the proxy classifies the query as
machine-verified, built from the first such candidate in upstream order —
regardless of what (e.g. ambiguous-type candidates) appears earlier. -/
theorem c1_verified_scan_dominates (items : List KnowledgeGraphItem) (query : String)
    (h : items.any isRecognizedItem = true) :
    ∃ k, ∃ hk : k < items.length, ∃ r,
      (items.get ⟨k, hk⟩).result = some r ∧ matchesVerified r = true ∧
      (∀ j ∈ items.take k, isRecognizedItem j = false) ∧
      classifyResponse ⟨some items⟩ query = .machineVerified (mkVerifiedResult r query) := by
  rw [isRecognizedItem_eq_itemFires] at h
  obtain ⟨k, hk, r, hres, htest, hpre, hfind⟩ := scanFirst_first matchesVerified items h
  refine ⟨k, hk, r, hres, htest, ?_, ?_⟩
  · intro j hj
    rw [isRecognizedItem_eq_itemFires]
    exact hpre j hj
  · have hne : items ≠ [] := by
      rintro rfl
      simp at h
    rw [classifyResponse_some, if_neg (by simpa [List.isEmpty_iff] using hne)]
    unfold classifyItems findVerified
    rw [hfind]

theorem c1_witness :
    (([⟨some ⟨none, some "Acme topic", .multiple ["Thing"], none, none, none⟩, some 900⟩,
       ⟨some ⟨some "kg:/m/01", some "Acme Ltd", .multiple ["LocalBusiness"], none, none, none⟩,
        some 300⟩] : List KnowledgeGraphItem).any isRecognizedItem = true) ∧
    (∃ k, ∃ hk : k < ([⟨some ⟨none, some "Acme topic", .multiple ["Thing"], none, none, none⟩, some 900⟩,
       ⟨some ⟨some "kg:/m/01", some "Acme Ltd", .multiple ["LocalBusiness"], none, none, none⟩,
        some 300⟩] : List KnowledgeGraphItem).length, ∃ r,
      (([⟨some ⟨none, some "Acme topic", .multiple ["Thing"], none, none, none⟩, some 900⟩,
       ⟨some ⟨some "kg:/m/01", some "Acme Ltd", .multiple ["LocalBusiness"], none, none, none⟩,
        some 300⟩] : List KnowledgeGraphItem).get ⟨k, hk⟩).result = some r ∧
      matchesVerified r = true ∧
      (∀ j ∈ ([⟨some ⟨none, some "Acme topic", .multiple ["Thing"], none, none, none⟩, some 900⟩,
       ⟨some ⟨some "kg:/m/01", some "Acme Ltd", .multiple ["LocalBusiness"], none, none, none⟩,
        some 300⟩] : List KnowledgeGraphItem).take k, isRecognizedItem j = false) ∧
      classifyResponse ⟨some [⟨some ⟨none, some "Acme topic", .multiple ["Thing"], none, none, none⟩, some 900⟩,
       ⟨some ⟨some "kg:/m/01", some "Acme Ltd", .multiple ["LocalBusiness"], none, none, none⟩,
        some 300⟩]⟩ "Acme" = .machineVerified (mkVerifiedResult r "Acme")) :=
  ⟨by decide, c1_verified_scan_dominates _ "Acme" (by decide)⟩

/-- C5: a missing, non-string, or empty-string query is rejected with the
HTTP 400 error payload before any upstream call is made. -/
theorem c5_invalid_query_rejected (queryField : Option JsonVal)
    (apiKey : Option String) (upstream : UpstreamOutcome)
    (h : queryField = none ∨ (∀ s, queryField ≠ some (JsonVal.jstr s)) ∨
      queryField = some (JsonVal.jstr "")) :
    handleRequest "POST" (some queryField) apiKey upstream =
      (jsonResponse 400 (.errorMsg "Brand name is required"), false) := by
  have hcond : (!(fieldTruthy queryField) || !(fieldIsString queryField)) = true := by
    rcases h with rfl | h | rfl
    · rfl
    · rcases hq : queryField with _ | v
      · rfl
      · rcases v with s | q | b | _ | _ | _
        · exact absurd rfl (hq ▸ h s)
        · simp [fieldIsString, isJsString]
        · simp [fieldIsString, isJsString]
        · simp [fieldIsString, isJsString]
        · simp [fieldIsString, isJsString]
        · simp [fieldIsString, isJsString]
    · rfl
  unfold handleRequest
  rw [if_neg (by decide)]
  show (if (!(fieldTruthy queryField) || !(fieldIsString queryField)) = true then _ else _) = _
  rw [if_pos hcond]

theorem c5_witness :
    ((some (JsonVal.jstr "") = none ∨ (∀ s, some (JsonVal.jstr "") ≠ some (JsonVal.jstr s)) ∨
        some (JsonVal.jstr "") = some (JsonVal.jstr "")) ∧
      handleRequest "POST" (some (some (JsonVal.jstr ""))) (some "key") (.success ⟨none⟩) =
        (jsonResponse 400 (.errorMsg "Brand name is required"), false)) :=
  ⟨Or.inr (Or.inr rfl),
   c5_invalid_query_rejected (some (JsonVal.jstr "")) (some "key") (.success ⟨none⟩)
     (Or.inr (Or.inr rfl))⟩

/-- C9: items whose `result` field is absent are skipped by both scans
(filtering them out does not change the classification), and a list in which
every item lacks a `result` is classified ai-invisible. -/
theorem c9_resultless_items_skipped :
    (∀ (items : List KnowledgeGraphItem) (query : String),
        classifyItems (items.filter fun i => i.result.isSome) query =
          classifyItems items query) ∧
    (∀ (items : List KnowledgeGraphItem) (query : String),
        (∀ i ∈ items, i.result = none) →
        classifyResponse ⟨some items⟩ query = .aiInvisible) := by
  constructor
  · intro items query
    unfold classifyItems findVerified findAmbiguous
    rw [scanFirst_filter, scanFirst_filter]
  · intro items query h
    rw [classifyResponse_some]
    rcases he : items.isEmpty with _ | _
    · rw [if_neg (by simp [he])]
      unfold classifyItems findVerified findAmbiguous
      rw [scanFirst_eq_none_of_no_result _ _ h, scanFirst_eq_none_of_no_result _ _ h]
    · rw [if_pos (by simp [he])]

theorem c9_witness :
    ((∀ i ∈ ([⟨none, some 5⟩, ⟨none, none⟩] : List KnowledgeGraphItem), i.result = none) ∧
      classifyResponse ⟨some [⟨none, some 5⟩, ⟨none, none⟩]⟩ "Acme" = .aiInvisible) :=
  ⟨by decide, c9_resultless_items_skipped.2 _ "Acme" (by decide)⟩

/-- C10: every non-OPTIONS response of the handler carries the permissive
CORS headers and a `Content-Type: application/json` header. -/
theorem c10_cors_headers_everywhere (method : String) (body : Option (Option JsonVal))
    (apiKey : Option String) (upstream : UpstreamOutcome) (h : method ≠ "OPTIONS") :
    (∀ hdr ∈ corsHeaders, hdr ∈ (handleRequest method body apiKey upstream).1.headers) ∧
    ("Access-Control-Allow-Origin", "*") ∈ (handleRequest method body apiKey upstream).1.headers ∧
    ("Content-Type", "application/json") ∈ (handleRequest method body apiKey upstream).1.headers := by
  rw [handleRequest_headers method body apiKey upstream h]
  refine ⟨fun hdr hmem => List.mem_append_left _ hmem, ?_, ?_⟩
  · simp [jsonHeaders, corsHeaders]
  · simp [jsonHeaders]

theorem c10_witness :
    ("POST" ≠ "OPTIONS") ∧
    (("Access-Control-Allow-Origin", "*") ∈
        (handleRequest "POST" (some (some (JsonVal.jstr "Acme"))) (some "key")
          (.success ⟨none⟩)).1.headers ∧
      ("Content-Type", "application/json") ∈
        (handleRequest "POST" (some (some (JsonVal.jstr "Acme"))) (some "key")
          (.success ⟨none⟩)).1.headers) :=
  ⟨by decide,
   (c10_cors_headers_everywhere "POST" (some (some (JsonVal.jstr "Acme"))) (some "key")
      (.success ⟨none⟩) (by decide)).2⟩


/-- C2: for a machine-verified status with a result present, the calibrated
display score is round(min(resultScore / 600 * 100, 98) * p) with p = 1 when
the types meet the specialized set and p = 0.6 otherwise; in particular
types ["LocalBusiness"] with resultScore 300 scores 30. -/
theorem c2_calibrated_score_formula :
    (∀ r : AppCalibrated.EntityResult,
        AppCalibrated.getFoundScore .machineVerified (some r) =
          some (round (min (r.resultScore / 600 * 100) 98 *
            (if r.types.any (fun t => AppCalibrated.specializedTypes.contains t) then 1
             else 6 / 10)))) ∧
    AppCalibrated.getFoundScore .machineVerified (some ⟨["LocalBusiness"], 300⟩) = some 30 := by
  constructor
  · intro r
    exact calibrated_score_eq .machineVerified r (by decide) (by decide)
  · rw [calibrated_score_eq .machineVerified _ (by decide) (by decide), if_neg (by decide)]
    norm_num [min_def, round_eq, Int.floor_eq_iff]

/-- C3 as stated is false on the calibrated variant: in its reachable
ai-invisible state (no result object, as its own fetch handler leaves it),
the computed score is null, not 0. -/
theorem c3_counterexample :
    AppCalibrated.getFoundScore .aiInvisible none = none ∧
    AppCalibrated.getFoundScore .aiInvisible none ≠ some 0 := by
  constructor
  · rfl
  · intro h
    cases h

/-- C3 amended: zero upstream candidates classify as ai-invisible; the
App.tsx scorer gives ai-invisible exactly 0; the calibrated variant gives 0
only when a result object is present and yields no score (null) when the
result is absent. -/
theorem c3_empty_list_invisible_amended :
    (∀ (data : KnowledgeGraphResponse) (query : String),
        data.itemListElement = none ∨ data.itemListElement = some [] →
        classifyResponse data query = .aiInvisible) ∧
    AppMain.getFoundScore .aiInvisible = some 0 ∧
    (∀ r : AppCalibrated.EntityResult,
        AppCalibrated.getFoundScore .aiInvisible (some r) = some 0) ∧
    AppCalibrated.getFoundScore .aiInvisible none = none := by
  refine ⟨?_, by rfl, ?_, by rfl⟩
  · intro data query h
    rcases data with ⟨el⟩
    rcases h with h | h
    · have he : el = none := h
      subst he
      rfl
    · have he : el = some [] := h
      subst he
      rfl
  · intro r
    simp [AppCalibrated.getFoundScore]

theorem c3_witness :
    classifyResponse ⟨none⟩ "Acme" = .aiInvisible :=
  c3_empty_list_invisible_amended.1 ⟨none⟩ "Acme" (Or.inl rfl)

/-- C4 as stated is false: the calibrated scorer has no 45-cap for the
ambiguous status; an ambiguous result with types ["Thing"] and resultScore
600 displays 59 > 45. -/
theorem c4_counterexample :
    AppCalibrated.getFoundScore .ambiguous (some ⟨["Thing"], 600⟩) = some 59 ∧
    ¬((59 : ℤ) ≤ 45) := by
  constructor
  · rw [calibrated_score_eq .ambiguous _ (by decide) (by decide), if_neg (by decide)]
    norm_num [min_def, round_eq, Int.floor_eq_iff]
  · decide

/-- C4 amended: the plain App.tsx scorer pins ambiguous at exactly 45; the
calibrated scorer applies no ambiguous cap — its ambiguous score with a
result present is only bounded by 98. -/
theorem c4_ambiguous_cap_amended :
    AppMain.getFoundScore .ambiguous = some 45 ∧
    (∀ r : AppCalibrated.EntityResult, ∃ n : ℤ,
        AppCalibrated.getFoundScore .ambiguous (some r) = some n ∧ n ≤ 98) := by
  constructor
  · rfl
  · intro r
    refine ⟨_, calibrated_score_eq .ambiguous r (by decide) (by decide), ?_⟩
    by_cases hb : (r.types.any fun t => AppCalibrated.specializedTypes.contains t) = true
    · rw [if_pos hb, mul_one]
      have h1 : round (min (r.resultScore / 600 * 100) 98) ≤ round (98 : ℚ) :=
        round_mono_rat (min_le_right _ _)
      have h2 : round ((98 : ℚ)) = 98 := by
        norm_num [round_eq, Int.floor_eq_iff]
      omega
    · rw [if_neg hb]
      have h1 : min (r.resultScore / 600 * 100) 98 * (6 / 10) ≤ 98 * (6 / 10) :=
        mul_le_mul_of_nonneg_right (min_le_right _ _) (by norm_num)
      have h2 : round (min (r.resultScore / 600 * 100) 98 * (6 / 10)) ≤
          round ((98 : ℚ) * (6 / 10)) := round_mono_rat h1
      have h3 : round ((98 : ℚ) * (6 / 10)) = 59 := by
        norm_num [round_eq, Int.floor_eq_iff]
      omega

/-- C6 as stated is false: for a candidate with an upstream resultScore of
300, the machine-verified payload of the proxy contains no `resultScore`
key (and no `location` key) — only name, entityId and types here. -/
theorem c6_counterexample :
    classifyResponse
        ⟨some [⟨some ⟨some "kg:/m/01", some "Acme Ltd", .multiple ["Organization"],
          none, none, none⟩, some 300⟩]⟩ "Acme" =
      .machineVerified ⟨"Acme Ltd", some "kg:/m/01", ["Organization"], none, none⟩ ∧
    verifiedResultKeys ⟨"Acme Ltd", some "kg:/m/01", ["Organization"], none, none⟩ =
      ["name", "entityId", "types"] ∧
    "resultScore" ∉ verifiedResultKeys
      ⟨"Acme Ltd", some "kg:/m/01", ["Organization"], none, none⟩ ∧
    "location" ∉ verifiedResultKeys
      ⟨"Acme Ltd", some "kg:/m/01", ["Organization"], none, none⟩ := by
  refine ⟨by decide, by decide, by decide, by decide⟩

/-- C6 amended: every machine-verified payload comes from some candidate of
the upstream list whose `result` is present; `entityId`, `types`,
`description` and `url` are copied through and `name` falls back to the
query when upstream omits it, but `resultScore` and `location` are not part
of the payload. -/
theorem c6_verified_payload_fields_amended (data : KnowledgeGraphResponse)
    (query : String) (p : VerifiedResult)
    (h : classifyResponse data query = .machineVerified p) :
    ∃ items, data.itemListElement = some items ∧
      ∃ i ∈ items, ∃ r, i.result = some r ∧
        p.name = jsStringOr r.name query ∧
        p.entityId = r.id ∧
        p.types = normalizeTypes r.typeField ∧
        p.description = r.description ∧
        p.url = r.url ∧
        (r.name = none → p.name = query) ∧
        "resultScore" ∉ verifiedResultKeys p ∧
        "location" ∉ verifiedResultKeys p := by
  rcases data with ⟨_ | items⟩
  · exact absurd h (by simp [classifyResponse])
  · refine ⟨items, rfl, ?_⟩
    rw [classifyResponse_some] at h
    rcases he : items.isEmpty with _ | _
    · rw [if_neg (by simp [he])] at h
      unfold classifyItems at h
      rcases hv : findVerified items with _ | r
      · rw [hv] at h
        rcases ha : findAmbiguous items with _ | r <;> rw [ha] at h <;> cases h
      · rw [hv] at h
        obtain ⟨i, hi, hres, htest⟩ := scanFirst_mem matchesVerified items r hv
        have hp : p = mkVerifiedResult r query := by
          cases h
          rfl
        subst hp
        refine ⟨i, hi, r, hres, rfl, rfl, rfl, rfl, rfl, ?_, ?_, ?_⟩
        · intro hn
          unfold mkVerifiedResult jsStringOr
          rw [hn]
        · exact resultScore_notMem_verifiedResultKeys _
        · exact location_notMem_verifiedResultKeys _
    · rw [if_pos (by simp [he])] at h
      cases h

theorem c6_witness :
    ∃ items, (⟨some [⟨some ⟨some "kg:/m/01", some "Acme Ltd", .multiple ["Organization"],
          none, none, none⟩, some 300⟩]⟩ : KnowledgeGraphResponse).itemListElement = some items ∧
      ∃ i ∈ items, ∃ r, i.result = some r ∧
        (⟨"Acme Ltd", some "kg:/m/01", ["Organization"], none, none⟩ : VerifiedResult).name =
          jsStringOr r.name "Acme" ∧
        (⟨"Acme Ltd", some "kg:/m/01", ["Organization"], none, none⟩ : VerifiedResult).entityId = r.id ∧
        (⟨"Acme Ltd", some "kg:/m/01", ["Organization"], none, none⟩ : VerifiedResult).types =
          normalizeTypes r.typeField ∧
        (⟨"Acme Ltd", some "kg:/m/01", ["Organization"], none, none⟩ : VerifiedResult).description =
          r.description ∧
        (⟨"Acme Ltd", some "kg:/m/01", ["Organization"], none, none⟩ : VerifiedResult).url = r.url ∧
        (r.name = none →
          (⟨"Acme Ltd", some "kg:/m/01", ["Organization"], none, none⟩ : VerifiedResult).name = "Acme") ∧
        "resultScore" ∉ verifiedResultKeys ⟨"Acme Ltd", some "kg:/m/01", ["Organization"], none, none⟩ ∧
        "location" ∉ verifiedResultKeys ⟨"Acme Ltd", some "kg:/m/01", ["Organization"], none, none⟩ :=
  c6_verified_payload_fields_amended
    ⟨some [⟨some ⟨some "kg:/m/01", some "Acme Ltd", .multiple ["Organization"],
      none, none, none⟩, some 300⟩]⟩ "Acme"
    ⟨"Acme Ltd", some "kg:/m/01", ["Organization"], none, none⟩ (by decide)

/-- C7 as stated is false: with a machine-verified result whose raw
resultScore is 0, each raw-score variant computes null (no score readout),
not a 0-5% score, because JS treats 0 as falsy. -/
theorem c7_counterexample :
    AppStable.displayScore .machineVerified
      (some ⟨"Acme", none, ["Organization"], none, none, some 0, none⟩) = none ∧
    AppNuclear.rawScore .machineVerified
      (some ⟨"Acme", none, ["Organization"], none, none, some 0, none⟩) = none ∧
    AppBrutal.foundScore .machineVerified
      (some ⟨"Acme", none, ["Organization"], none, none, some 0, none⟩) = none := by
  have hne : Status.machineVerified ≠ Status.aiInvisible := by decide
  refine ⟨?_, ?_, ?_⟩ <;>
    norm_num [AppStable.displayScore, AppNuclear.rawScore, AppBrutal.foundScore,
      optionalScore, hne]

/-- C7 amended: a machine-verified result with resultScore 0 yields no
numeric score (null) in the raw-score variants while the entity detail panel
still renders; ai-invisible yields score 0 with no entity panel — the two
states remain distinguishable, but no 0-5% score is shown. -/
theorem c7_zero_score_amended :
    (∀ r : ClientResult, r.resultScore = some 0 →
        AppStable.displayScore .machineVerified (some r) = none ∧
        AppNuclear.rawScore .machineVerified (some r) = none ∧
        AppBrutal.foundScore .machineVerified (some r) = none ∧
        AppStable.showsEntityPanel .machineVerified (some r) = true ∧
        AppStable.displayScore .machineVerified (some r) ≠
          AppStable.displayScore .aiInvisible none) ∧
    AppStable.displayScore .aiInvisible none = some 0 ∧
    AppStable.showsEntityPanel .aiInvisible none = false := by
  have hne : Status.machineVerified ≠ Status.aiInvisible := by decide
  refine ⟨?_, by rfl, by rfl⟩
  intro r h
  have h1 : AppStable.displayScore .machineVerified (some r) = none := by
    norm_num [AppStable.displayScore, optionalScore, h, hne]
  refine ⟨h1, ?_, ?_, by simp [AppStable.showsEntityPanel], ?_⟩
  · norm_num [AppNuclear.rawScore, optionalScore, h, hne]
  · norm_num [AppBrutal.foundScore, optionalScore, h, hne]
  · rw [h1]
    decide

theorem c7_witness :
    ((⟨"Acme", none, ["Organization"], none, none, some 0, none⟩ : ClientResult).resultScore
        = some 0) ∧
    (AppStable.displayScore .machineVerified
        (some ⟨"Acme", none, ["Organization"], none, none, some 0, none⟩) = none ∧
      AppNuclear.rawScore .machineVerified
        (some ⟨"Acme", none, ["Organization"], none, none, some 0, none⟩) = none ∧
      AppBrutal.foundScore .machineVerified
        (some ⟨"Acme", none, ["Organization"], none, none, some 0, none⟩) = none ∧
      AppStable.showsEntityPanel .machineVerified
        (some ⟨"Acme", none, ["Organization"], none, none, some 0, none⟩) = true ∧
      AppStable.displayScore .machineVerified
          (some ⟨"Acme", none, ["Organization"], none, none, some 0, none⟩) ≠
        AppStable.displayScore .aiInvisible none) :=
  ⟨rfl, c7_zero_score_amended.1 ⟨"Acme", none, ["Organization"], none, none, some 0, none⟩ rfl⟩

/-- C8 as stated is false: in the part_001 variant, a result with the larger
raw score 1 displays 1 while the smaller raw score 0.5 displays 50 — the
same classification (machine-verified) and no niche concept involved. -/
theorem c8_counterexample :
    AppStable.displayScore .machineVerified
      (some ⟨"Acme", none, [], none, none, some (1 / 2), none⟩) = some 50 ∧
    AppStable.displayScore .machineVerified
      (some ⟨"Acme", none, [], none, none, some 1, none⟩) = some 1 ∧
    ((1 : ℚ) / 2) < 1 ∧ (1 : ℤ) < 50 := by
  refine ⟨?_, ?_, by norm_num, by decide⟩ <;>
    norm_num [AppStable.displayScore, optionalScore, min_def, round_eq, Int.floor_eq_iff]

/-- C8 amended: the calibrated scorer is monotone non-decreasing in
resultScore for a fixed status and fixed type list (hence fixed niche
outcome); the part_001 displayScore is not monotone. -/
theorem c8_monotone_amended (s : Status) (ts : List String) (a b : ℚ) (n₁ n₂ : ℤ)
    (hab : a ≤ b)
    (h₁ : AppCalibrated.getFoundScore s (some ⟨ts, a⟩) = some n₁)
    (h₂ : AppCalibrated.getFoundScore s (some ⟨ts, b⟩) = some n₂) :
    n₁ ≤ n₂ := by
  by_cases hl : s = .loading
  · subst hl
    exact absurd h₁ (by simp [AppCalibrated.getFoundScore])
  by_cases hi : s = .aiInvisible
  · subst hi
    have e₁ : some (0 : ℤ) = some n₁ := by
      rw [← h₁]
      simp [AppCalibrated.getFoundScore]
    have e₂ : some (0 : ℤ) = some n₂ := by
      rw [← h₂]
      simp [AppCalibrated.getFoundScore]
    cases e₁
    cases e₂
    exact le_refl 0
  · rw [calibrated_score_eq s _ hl hi] at h₁ h₂
    have hmin : min (a / 600 * 100) 98 ≤ min (b / 600 * 100) 98 := by
      refine min_le_min ?_ le_rfl
      have hd : a / 600 ≤ b / 600 := (div_le_div_iff_of_pos_right (by norm_num)).mpr hab
      exact mul_le_mul_of_nonneg_right hd (by norm_num)
    by_cases hb : (ts.any fun t => AppCalibrated.specializedTypes.contains t) = true
    · rw [if_pos hb, mul_one] at h₁ h₂
      have hr := round_mono_rat hmin
      cases h₁
      cases h₂
      exact hr
    · rw [if_neg hb] at h₁ h₂
      have hr := round_mono_rat (mul_le_mul_of_nonneg_right hmin (by norm_num : (0:ℚ) ≤ 6 / 10))
      cases h₁
      cases h₂
      exact hr

theorem c8_witness :
    ((300 : ℚ) ≤ 600) ∧ (30 : ℤ) ≤ 59 :=
  ⟨by norm_num,
   c8_monotone_amended .machineVerified [] 300 600 30 59 (by norm_num)
     (by
       rw [calibrated_score_eq .machineVerified _ (by decide) (by decide), if_neg (by decide)]
       norm_num [min_def, round_eq, Int.floor_eq_iff])
     (by
       rw [calibrated_score_eq .machineVerified _ (by decide) (by decide), if_neg (by decide)]
       norm_num [min_def, round_eq, Int.floor_eq_iff])⟩

end EntitySearcher
